import Mathlib

/-!
Verification of `scripts/balance_train.py`, the entry-point script that
configures and drives the two-agent PPO training loop for the balance-beam
environment.  The script is embedded shallowly: its configuration record,
the environment-backend selection, the run-name computation, and the ordered
trace of effectful calls it performs (environment construction, global
seeding, the CUDA assertion, agent construction, partner registration,
reset, and the `get_action`/`step`/`update` loop) are translated into Lean
definitions, and the claims of the specification are proved or refuted
against them.  Components of the repository that the script imports but
whose sources are not available (`CleanPPOAgent`, `PantheonLine`, the GAE
estimator) are modelled from the specification's words where a claim needs
them; those definitions carry a doc comment saying so.
-/

namespace BalanceTrain

/-- Configuration record mirroring the fields of `parse_args()` in
`scripts/balance_train.py` (lines 22–71).  Integer-valued flags are `Nat`
or `Int` as appropriate; real-valued hyperparameters are rationals;
`target_kl` defaults to `None` and is therefore an `Option`. -/
structure Args where
  seed : Int
  torch_deterministic : Bool
  cuda : Bool
  madrona : Bool
  total_timesteps : Nat
  num_envs : Nat
  learning_rate : Rat
  num_steps : Nat
  anneal_lr : Bool
  gamma : Rat
  gae_lambda : Rat
  num_minibatches : Nat
  update_epochs : Nat
  norm_adv : Bool
  clip_coef : Rat
  clip_vloss : Bool
  ent_coef : Rat
  vf_coef : Rat
  max_grad_norm : Rat
  target_kl : Option Rat
deriving DecidableEq, Repr

/-- The default configuration, mirroring the `default=` values of the
argument parser (lines 25–68). -/
def defaultArgs : Args where
  seed := 1
  torch_deterministic := true
  cuda := true
  madrona := true
  total_timesteps := 5000000
  num_envs := 120
  learning_rate := 1 / 4000
  num_steps := 60
  anneal_lr := true
  gamma := 99 / 100
  gae_lambda := 19 / 20
  num_minibatches := 1
  update_epochs := 4
  norm_adv := true
  clip_coef := 1 / 5
  clip_vloss := true
  ent_coef := 1 / 100
  vf_coef := 1 / 2
  max_grad_norm := 1 / 2
  target_kl := none

/-- Torch device.  The script only ever mentions `torch.device("cpu")`
(lines 107 and 129); `cuda` is listed for contrast. -/
inductive Device
  | cpu
  | cuda
deriving DecidableEq, Repr

/-- The seeding performed on one synchronous sub-environment by the thunk
returned from `make_env` (lines 73–81): `env.seed(seed)`,
`env.action_space.seed(seed)`, `env.observation_space.seed(seed)`. -/
structure SubEnvSpec where
  env_seed : Int
  action_space_seed : Int
  observation_space_seed : Int
deriving DecidableEq, Repr

/-- `make_env(seed, idx)` (lines 73–81): the thunk seeds the fresh
`PantheonLine` and both of its spaces with the same `seed`; `idx` is
accepted but unused, exactly as in the source. -/
def make_env (seed : Int) (idx : Nat) : SubEnvSpec :=
  { env_seed := seed
    action_space_seed := seed
    observation_space_seed := seed }

/-- The environment backend constructed at lines 88–93: either
`BalanceMadronaTorch(num_envs, 0, False)` or
`SyncVectorEnv([make_env(seed + i, i) for i in range(num_envs)])`. -/
inductive EnvBackend
  | balanceMadronaTorch (num_worlds : Nat) (gpu_id : Nat) (debug_compile : Bool)
  | syncVectorEnv (subenvs : List SubEnvSpec)
deriving DecidableEq, Repr

/-- The backend-selection branch at lines 88–93. -/
def mkEnv (args : Args) : EnvBackend :=
  if args.madrona then
    .balanceMadronaTorch args.num_envs 0 false
  else
    .syncVectorEnv ((List.range args.num_envs).map fun (i : Nat) => make_env (args.seed + (i : Int)) i)

/-- The backend tag interpolated into the run name (line 84). -/
def backendName (madrona : Bool) : String :=
  if madrona then "madrona" else "numpy"

/-- `run_name` (line 84):
`Balance_Train__{seed}__{int(time.time())}__{num_envs}_{madrona or numpy}`.
The wall-clock value `int(time.time())` is an explicit parameter. -/
def run_name (args : Args) (unixTime : Nat) : String :=
  "Balance_Train__" ++ toString args.seed ++ "__" ++ toString unixTime ++ "__"
    ++ toString args.num_envs ++ "_" ++ backendName args.madrona

/-- `num_updates = args.total_timesteps // int(args.num_envs * args.num_steps)`
(line 102).  Python's `//` on nonnegative integers is `Nat` division; the
source raises `ZeroDivisionError` when `num_envs * num_steps = 0`, an error
path `runScript` models with an explicit `zeroDivisionError` event, so this
division is only ever consulted when that product is positive. -/
def num_updates (args : Args) : Nat :=
  args.total_timesteps / (args.num_envs * args.num_steps)

/-- Which of the two learner agents an event belongs to. -/
inductive AgentId
  | ego
  | partner
deriving DecidableEq, Repr

/-- The keyword arguments passed to a `CleanPPOAgent` constructor
(lines 104–124 for `ego`, 126–146 for `partner`). -/
structure AgentSpec where
  envs : EnvBackend
  name : String
  device : Device
  num_updates : Nat
  verbose : Bool
  lr : Rat
  num_steps : Nat
  anneal_lr : Bool
  gamma : Rat
  gae_lambda : Rat
  num_minibatches : Nat
  update_epochs : Nat
  norm_adv : Bool
  clip_coef : Rat
  clip_vloss : Bool
  ent_coef : Rat
  vf_coef : Rat
  max_grad_norm : Rat
  target_kl : Option Rat
deriving DecidableEq, Repr

/-- The `ego = CleanPPOAgent(...)` construction (lines 104–124). -/
def egoSpec (args : Args) (unixTime : Nat) : AgentSpec :=
  { envs := mkEnv args
    name := run_name args unixTime ++ "_ego"
    device := Device.cpu
    num_updates := num_updates args
    verbose := true
    lr := args.learning_rate
    num_steps := args.num_steps
    anneal_lr := args.anneal_lr
    gamma := args.gamma
    gae_lambda := args.gae_lambda
    num_minibatches := args.num_minibatches
    update_epochs := args.update_epochs
    norm_adv := args.norm_adv
    clip_coef := args.clip_coef
    clip_vloss := args.clip_vloss
    ent_coef := args.ent_coef
    vf_coef := args.vf_coef
    max_grad_norm := args.max_grad_norm
    target_kl := args.target_kl }

/-- The `partner = CleanPPOAgent(...)` construction (lines 126–146):
identical to `ego` except for the `"_alt"` name suffix. -/
def partnerSpec (args : Args) (unixTime : Nat) : AgentSpec :=
  { egoSpec args unixTime with name := run_name args unixTime ++ "_alt" }

/-- One observable effectful call performed by the script, in program
order.  `assertFailure` marks the `assert args.cuda` (line 100) firing;
`zeroDivisionError` marks the `ZeroDivisionError` raised by the division at
line 102 when `num_envs * num_steps = 0`, which happens after the assertion
and before any agent is constructed. -/
inductive Event
  | printRun (s : String)
  | constructEnv (b : EnvBackend)
  | seedRandom (s : Int)
  | seedNumpy (s : Int)
  | seedTorchManual (s : Int)
  | setCudnnDeterministic (b : Bool)
  | assertFailure
  | zeroDivisionError
  | constructAgent (who : AgentId) (spec : AgentSpec)
  | addPartnerAgent (who : AgentId)
  | reset
  | step (iter : Nat)
  | getAction (who : AgentId) (iter : Nat)
  | update (who : AgentId) (iter : Nat)
deriving DecidableEq, Repr

/-- The straight-line part of the script executed unconditionally before the
CUDA assertion: the `print` (line 86), the backend construction (88–93), the
three global RNG seedings (95–97) and the cuDNN-determinism setting (98). -/
def preludePart (args : Args) (unixTime : Nat) : List Event :=
  [.printRun (run_name args unixTime),
   .constructEnv (mkEnv args),
   .seedRandom args.seed,
   .seedNumpy args.seed,
   .seedTorchManual args.seed,
   .setCudnnDeterministic args.torch_deterministic]

/-- The straight-line part after the CUDA assertion and before the loop:
both agent constructions (104–146), `env.add_partner_agent(partner)` (150),
and the single `env.reset()` (151). -/
def setupPart (args : Args) (unixTime : Nat) : List Event :=
  [.constructAgent .ego (egoSpec args unixTime),
   .constructAgent .partner (partnerSpec args unixTime),
   .addPartnerAgent .partner,
   .reset]

/-- One iteration of the training loop (lines 152–157):
`ego.get_action(obs, record=True)`, `env.step(action)`,
`ego.update(rewards, dones)`. -/
def loopBody (i : Nat) : List Event :=
  [.getAction .ego i, .step i, .update .ego i]

/-- The whole loop: `for iter in range(num_updates * args.num_steps)`. -/
def loopTrace (n : Nat) : List Event :=
  (List.range n).flatMap loopBody

/-- The full trace of the script for a given configuration and wall-clock
reading.  When `args.cuda` is false the `assert` at line 100 aborts the
process: nothing after it runs.  When the assertion passes but
`num_envs * num_steps = 0`, the division at line 102 raises
`ZeroDivisionError` and the process dies there: no agent is constructed, no
partner registered, no reset performed. -/
def runScript (args : Args) (unixTime : Nat) : List Event :=
  preludePart args unixTime ++
    if args.cuda then
      if args.num_envs * args.num_steps = 0 then
        [.zeroDivisionError]
      else
        setupPart args unixTime ++ loopTrace (num_updates args * args.num_steps)
    else
      [.assertFailure]

/-! Event classifiers used to state properties of the trace. -/

/-- True on the `print` event. -/
def isPrintRun : Event → Bool
  | .printRun _ => true
  | _ => false

/-- True on the environment-construction event. -/
def isConstructEnv : Event → Bool
  | .constructEnv _ => true
  | _ => false

/-- True on a `CleanPPOAgent` construction event. -/
def isConstructAgent : Event → Bool
  | .constructAgent _ _ => true
  | _ => false

/-- True on the `env.reset()` event. -/
def isReset : Event → Bool
  | .reset => true
  | _ => false

/-- True on an `env.step(action)` event. -/
def isStep : Event → Bool
  | .step _ => true
  | _ => false

/-- True on a `get_action` event. -/
def isGetAction : Event → Bool
  | .getAction _ _ => true
  | _ => false

/-- True on an `update` event, whichever agent receives it. -/
def isUpdate : Event → Bool
  | .update _ _ => true
  | _ => false

/-- True on an `update` event received by the ego agent. -/
def isEgoUpdate : Event → Bool
  | .update .ego _ => true
  | _ => false

/-- True on an `update` event received by the partner agent. -/
def isPartnerUpdate : Event → Bool
  | .update .partner _ => true
  | _ => false

/-- True on a call made on the environment handle:
`add_partner_agent`, `reset`, or `step`. -/
def isEnvCall : Event → Bool
  | .addPartnerAgent _ => true
  | .reset => true
  | .step _ => true
  | _ => false

/-- True on an event produced by the body of the training loop. -/
def isLoopEvent : Event → Bool
  | .getAction _ _ => true
  | .step _ => true
  | .update _ _ => true
  | _ => false

/-! Basic lemmas about the loop trace. -/

lemma loopTrace_zero : loopTrace 0 = [] := rfl

lemma loopTrace_succ (n : Nat) :
    loopTrace (n + 1) = loopTrace n ++ loopBody n := by
  simp [loopTrace, List.range_succ]

lemma mem_loopTrace {e : Event} {n : Nat} :
    e ∈ loopTrace n ↔ ∃ i, i < n ∧ e ∈ loopBody i := by
  simp [loopTrace, List.mem_flatMap, List.mem_range]

lemma filter_step_loopTrace (n : Nat) :
    (loopTrace n).filter isStep = (List.range n).map Event.step := by
  induction n with
  | zero => rfl
  | succ n ih =>
      simp [loopTrace_succ, List.range_succ, List.filter_append, ih, loopBody, isStep]

lemma filter_getAction_loopTrace (n : Nat) :
    (loopTrace n).filter isGetAction = (List.range n).map (Event.getAction .ego) := by
  induction n with
  | zero => rfl
  | succ n ih =>
      simp [loopTrace_succ, List.range_succ, List.filter_append, ih, loopBody, isGetAction]

lemma filter_update_loopTrace (n : Nat) :
    (loopTrace n).filter isUpdate = (List.range n).map (Event.update .ego) := by
  induction n with
  | zero => rfl
  | succ n ih =>
      simp [loopTrace_succ, List.range_succ, List.filter_append, ih, loopBody, isUpdate]

lemma filter_egoUpdate_loopTrace (n : Nat) :
    (loopTrace n).filter isEgoUpdate = (List.range n).map (Event.update .ego) := by
  induction n with
  | zero => rfl
  | succ n ih =>
      simp [loopTrace_succ, List.range_succ, List.filter_append, ih, loopBody, isEgoUpdate]

lemma filter_partnerUpdate_loopTrace (n : Nat) :
    (loopTrace n).filter isPartnerUpdate = [] := by
  induction n with
  | zero => rfl
  | succ n ih =>
      simp [loopTrace_succ, List.filter_append, ih, loopBody, isPartnerUpdate]

lemma filter_envCall_loopTrace (n : Nat) :
    (loopTrace n).filter isEnvCall = (List.range n).map Event.step := by
  induction n with
  | zero => rfl
  | succ n ih =>
      simp [loopTrace_succ, List.range_succ, List.filter_append, ih, loopBody, isEnvCall]

lemma filter_reset_loopTrace (n : Nat) :
    (loopTrace n).filter isReset = [] := by
  induction n with
  | zero => rfl
  | succ n ih =>
      simp [loopTrace_succ, List.filter_append, ih, loopBody, isReset]

lemma filter_constructEnv_loopTrace (n : Nat) :
    (loopTrace n).filter isConstructEnv = [] := by
  induction n with
  | zero => rfl
  | succ n ih =>
      simp [loopTrace_succ, List.filter_append, ih, loopBody, isConstructEnv]

lemma filter_constructAgent_loopTrace (n : Nat) :
    (loopTrace n).filter isConstructAgent = [] := by
  induction n with
  | zero => rfl
  | succ n ih =>
      simp [loopTrace_succ, List.filter_append, ih, loopBody, isConstructAgent]

lemma filter_printRun_loopTrace (n : Nat) :
    (loopTrace n).filter isPrintRun = [] := by
  induction n with
  | zero => rfl
  | succ n ih =>
      simp [loopTrace_succ, List.filter_append, ih, loopBody, isPrintRun]

/-- The configuration with the backend flag replaced, all other fields kept. -/
def setMadrona (args : Args) (b : Bool) : Args :=
  { args with madrona := b }

/-- C1: for every configuration on which the script does not abort (the
CUDA flag is set and `num_envs * num_steps` is positive, the source raising
`ZeroDivisionError` otherwise), `num_updates` is the integer floor division
`total_timesteps / (num_envs * num_steps)`, fixed as a function of the
configuration alone before the loop starts, and the trace contains exactly
`num_updates * num_steps` `get_action` events, `step` events, and `update`
events. -/
theorem C1_fixed_iteration_count (args : Args) (t : Nat)
    (hcuda : args.cuda = true) (hpos : 0 < args.num_envs * args.num_steps) :
    num_updates args = args.total_timesteps / (args.num_envs * args.num_steps) ∧
    ((runScript args t).filter isGetAction).length = num_updates args * args.num_steps ∧
    ((runScript args t).filter isStep).length = num_updates args * args.num_steps ∧
    ((runScript args t).filter isUpdate).length = num_updates args * args.num_steps := by
  have hne : args.num_envs * args.num_steps ≠ 0 := Nat.pos_iff_ne_zero.mp hpos
  refine ⟨rfl, ?_, ?_, ?_⟩ <;>
    simp [runScript, hcuda, hne, preludePart, setupPart, List.filter_append,
      filter_getAction_loopTrace, filter_step_loopTrace, filter_update_loopTrace,
      isGetAction, isStep, isUpdate]

/-- Closed witness for `C1_fixed_iteration_count` at the default
configuration and wall-clock reading 0. -/
theorem C1_fixed_iteration_count_witness :
    defaultArgs.cuda = true ∧ 0 < defaultArgs.num_envs * defaultArgs.num_steps ∧
    (num_updates defaultArgs
        = defaultArgs.total_timesteps / (defaultArgs.num_envs * defaultArgs.num_steps) ∧
      ((runScript defaultArgs 0).filter isGetAction).length
        = num_updates defaultArgs * defaultArgs.num_steps ∧
      ((runScript defaultArgs 0).filter isStep).length
        = num_updates defaultArgs * defaultArgs.num_steps ∧
      ((runScript defaultArgs 0).filter isUpdate).length
        = num_updates defaultArgs * defaultArgs.num_steps) :=
  ⟨rfl, by decide, C1_fixed_iteration_count defaultArgs 0 rfl (by decide)⟩

/-- C2: the trace constructs exactly one environment backend; with the
madrona flag it is `BalanceMadronaTorch(num_envs, 0, False)`, and without
it is `SyncVectorEnv` over `num_envs` sub-environments whose `i`-th entry
is seeded (environment, action space and observation space alike) with
`seed + i`; and the sequence of calls made on the environment handle
(`add_partner_agent` / `reset` / `step`) is the same whichever backend was
selected. -/
theorem C2_backend_selection (args : Args) (t : Nat) :
    (runScript args t).filter isConstructEnv = [Event.constructEnv (mkEnv args)] ∧
    (args.madrona = true →
      mkEnv args = EnvBackend.balanceMadronaTorch args.num_envs 0 false) ∧
    (args.madrona = false →
      mkEnv args = EnvBackend.syncVectorEnv
        ((List.range args.num_envs).map fun (i : Nat) => make_env (args.seed + (i : Int)) i) ∧
      ∀ i : Nat, i < args.num_envs →
        ((List.range args.num_envs).map
            fun (i : Nat) => make_env (args.seed + (i : Int)) i).get? i
          = some { env_seed := args.seed + (i : Int),
                   action_space_seed := args.seed + (i : Int),
                   observation_space_seed := args.seed + (i : Int) }) ∧
    (∀ b : Bool,
      (runScript (setMadrona args b) t).filter isEnvCall
        = (runScript args t).filter isEnvCall) := by
  refine ⟨?_, ?_, ?_, ?_⟩
  · cases hcuda : args.cuda
    · simp [runScript, hcuda, preludePart, isConstructEnv]
    · by_cases h0 : args.num_envs * args.num_steps = 0 <;>
        simp [runScript, hcuda, h0, preludePart, setupPart, List.filter_append,
          filter_constructEnv_loopTrace, isConstructEnv]
  · intro h; simp [mkEnv, h]
  · intro h
    refine ⟨by simp [mkEnv, h], ?_⟩
    intro i hi
    simp [List.getElem?_map, List.getElem?_range hi, make_env]
  · intro b
    cases hcuda : args.cuda
    · simp [runScript, setMadrona, hcuda, preludePart, isEnvCall]
    · by_cases h0 : args.num_envs * args.num_steps = 0 <;>
        simp [runScript, setMadrona, hcuda, h0, preludePart, setupPart, num_updates,
          List.filter_append, filter_envCall_loopTrace, isEnvCall]

/-- C3: the CUDA flag is a hard requirement.  When it is false the trace is
the prelude followed by the assertion failure: no agent is constructed and
no loop event occurs.  When it is true the assertion never fires, and
whenever the division at line 102 does not abort the run instead
(`num_envs * num_steps` positive), execution proceeds to agent construction
and the reset. -/
theorem C3_cuda_hard_requirement (args : Args) (t : Nat) :
    if args.cuda then
      Event.assertFailure ∉ runScript args t ∧
      (0 < args.num_envs * args.num_steps →
        Event.constructAgent .ego (egoSpec args t) ∈ runScript args t ∧
        Event.reset ∈ runScript args t)
    else
      runScript args t = preludePart args t ++ [Event.assertFailure] ∧
      (runScript args t).filter isConstructAgent = [] ∧
      (runScript args t).filter isLoopEvent = [] := by
  cases hcuda : args.cuda with
  | false =>
      simp [runScript, hcuda, preludePart, isConstructAgent, isLoopEvent]
  | true =>
      refine ⟨?_, ?_⟩
      · by_cases h0 : args.num_envs * args.num_steps = 0 <;>
          simp [runScript, hcuda, h0, preludePart, setupPart, mem_loopTrace, loopBody]
      · intro hpos
        have hne : args.num_envs * args.num_steps ≠ 0 := Nat.pos_iff_ne_zero.mp hpos
        constructor <;> simp [runScript, hcuda, hne, preludePart, setupPart]

/-- C4: the run name is exactly
`Balance_Train__{seed}__{unix_time}__{num_envs}_{madrona|numpy}`; the only
string the script prints is that name, and the only other identifiers it
hands out are the two agent names, which are the run name suffixed `_ego`
and `_alt`. -/
theorem C4_run_name (args : Args) (t : Nat) :
    run_name args t
      = "Balance_Train__" ++ toString args.seed ++ "__" ++ toString t ++ "__"
          ++ toString args.num_envs ++ "_"
          ++ (if args.madrona then "madrona" else "numpy") ∧
    (runScript args t).filter isPrintRun = [Event.printRun (run_name args t)] ∧
    ((runScript args t).filter isConstructAgent = [] ∨
      (runScript args t).filter isConstructAgent
        = [Event.constructAgent .ego (egoSpec args t),
           Event.constructAgent .partner (partnerSpec args t)]) ∧
    (egoSpec args t).name = run_name args t ++ "_ego" ∧
    (partnerSpec args t).name = run_name args t ++ "_alt" := by
  refine ⟨rfl, ?_, ?_, rfl, rfl⟩
  · cases hcuda : args.cuda
    · simp [runScript, hcuda, preludePart, isPrintRun]
    · by_cases h0 : args.num_envs * args.num_steps = 0 <;>
        simp [runScript, hcuda, h0, preludePart, setupPart, List.filter_append,
          filter_printRun_loopTrace, isPrintRun]
  · cases hcuda : args.cuda
    · left
      simp [runScript, hcuda, preludePart, isConstructAgent]
    · by_cases h0 : args.num_envs * args.num_steps = 0
      · left
        simp [runScript, hcuda, h0, preludePart, isConstructAgent]
      · right
        simp [runScript, hcuda, h0, preludePart, setupPart, List.filter_append,
          filter_constructAgent_loopTrace, isConstructAgent]

/-- C5: in a run that passes the CUDA assertion and survives the division
at line 102 (`num_envs * num_steps` positive), the sequence of calls made
on the environment handle is exactly `add_partner_agent`, then a single
`reset`, then the `step` calls of the loop in order: `reset` happens exactly
once, after partner registration and before every `step`, and never again. -/
theorem C5_reset_exactly_once (args : Args) (t : Nat) (hcuda : args.cuda = true)
    (hpos : 0 < args.num_envs * args.num_steps) :
    ((runScript args t).filter isReset).length = 1 ∧
    (runScript args t).filter isEnvCall
      = Event.addPartnerAgent .partner :: Event.reset ::
          (List.range (num_updates args * args.num_steps)).map Event.step := by
  have hne : args.num_envs * args.num_steps ≠ 0 := Nat.pos_iff_ne_zero.mp hpos
  constructor
  · simp [runScript, hcuda, hne, preludePart, setupPart, List.filter_append,
      filter_reset_loopTrace, isReset]
  · simp [runScript, hcuda, hne, preludePart, setupPart, List.filter_append,
      filter_envCall_loopTrace, isEnvCall]

/-- Closed witness for `C5_reset_exactly_once` at the default configuration
and wall-clock reading 0. -/
theorem C5_reset_exactly_once_witness :
    defaultArgs.cuda = true ∧ 0 < defaultArgs.num_envs * defaultArgs.num_steps ∧
    (((runScript defaultArgs 0).filter isReset).length = 1 ∧
      (runScript defaultArgs 0).filter isEnvCall
        = Event.addPartnerAgent .partner :: Event.reset ::
            (List.range (num_updates defaultArgs * defaultArgs.num_steps)).map Event.step) :=
  ⟨rfl, by decide, C5_reset_exactly_once defaultArgs 0 rfl (by decide)⟩

/-- C6: the partner agent never receives an `update` call anywhere in the
trace; every `update` event in the trace is directed at the ego agent.
Training is one-sided even though two learner agents are constructed. -/
theorem C6_partner_never_updated (args : Args) (t : Nat) :
    (runScript args t).filter isPartnerUpdate = [] ∧
    (runScript args t).filter isUpdate = (runScript args t).filter isEgoUpdate := by
  refine ⟨?_, ?_⟩
  · cases hcuda : args.cuda
    · simp [runScript, hcuda, preludePart, isPartnerUpdate]
    · by_cases h0 : args.num_envs * args.num_steps = 0 <;>
        simp [runScript, hcuda, h0, preludePart, setupPart, List.filter_append,
          filter_partnerUpdate_loopTrace, isPartnerUpdate]
  · cases hcuda : args.cuda
    · simp [runScript, hcuda, preludePart, isUpdate, isEgoUpdate]
    · by_cases h0 : args.num_envs * args.num_steps = 0 <;>
        simp [runScript, hcuda, h0, preludePart, setupPart, List.filter_append,
          filter_update_loopTrace, filter_egoUpdate_loopTrace, isUpdate, isEgoUpdate]

/-- C9: both agents are constructed with `device = torch.device("cpu")`
whatever the configuration (in particular whatever the CUDA flag), and the
trace contains exactly the two CPU-device constructions, ego then partner,
precisely in the runs that reach line 104: CUDA flag set and the division
at line 102 not aborting (`num_envs * num_steps` nonzero). -/
theorem C9_agents_on_cpu (args : Args) (t : Nat) :
    (egoSpec args t).device = Device.cpu ∧
    (partnerSpec args t).device = Device.cpu ∧
    (runScript args t).filter isConstructAgent
      = (if args.cuda = true ∧ args.num_envs * args.num_steps ≠ 0 then
          [Event.constructAgent .ego (egoSpec args t),
           Event.constructAgent .partner (partnerSpec args t)]
         else []) := by
  refine ⟨rfl, rfl, ?_⟩
  cases hcuda : args.cuda
  · simp [runScript, hcuda, preludePart, isConstructAgent]
  · by_cases h0 : args.num_envs * args.num_steps = 0 <;>
      simp [runScript, hcuda, h0, preludePart, setupPart, List.filter_append,
        filter_constructAgent_loopTrace, isConstructAgent]

/-- C10: when `total_timesteps < num_envs * num_steps`, the floor division
makes `num_updates = 0`, the loop body never executes, and the trace is
exactly the prelude, the two agent constructions, partner registration and
the reset — no `get_action`, `step` or `update` event occurs. -/
theorem C10_zero_update_edge_case (args : Args) (t : Nat)
    (hcuda : args.cuda = true)
    (hlt : args.total_timesteps < args.num_envs * args.num_steps) :
    num_updates args = 0 ∧
    runScript args t = preludePart args t ++ setupPart args t ∧
    (runScript args t).filter isLoopEvent = [] := by
  have h0 : num_updates args = 0 := Nat.div_eq_of_lt hlt
  have hne : args.num_envs * args.num_steps ≠ 0 := by omega
  refine ⟨h0, ?_, ?_⟩
  · simp [runScript, hcuda, hne, h0, loopTrace_zero]
  · simp [runScript, hcuda, hne, h0, loopTrace_zero, preludePart, setupPart,
      List.filter_append, isLoopEvent]

/-- Closed witness for `C10_zero_update_edge_case`: the default
configuration with `total_timesteps` lowered to 100 (less than
`120 * 60 = 7200`). -/
theorem C10_zero_update_edge_case_witness :
    num_updates { defaultArgs with total_timesteps := 100 } = 0 ∧
    runScript { defaultArgs with total_timesteps := 100 } 0
      = preludePart { defaultArgs with total_timesteps := 100 } 0
          ++ setupPart { defaultArgs with total_timesteps := 100 } 0 ∧
    (runScript { defaultArgs with total_timesteps := 100 } 0).filter isLoopEvent = [] :=
  C10_zero_update_edge_case { defaultArgs with total_timesteps := 100 } 0 rfl (by decide)

/-! GAE advantage estimation.  The estimator lives inside `CleanPPOAgent`,
whose source is not under `src/`; it is modelled from the specification. -/

/-- One consumed transition of a rollout buffer, as the advantage estimator
sees it: reward, value estimate, and done flag. -/
structure GaeStep where
  reward : Rat
  value : Rat
  done : Bool
deriving DecidableEq, Repr

/-- Modelled from the spec: the AdvantageEstimator of `CleanPPOAgent` (not
under `src/`).  The recursion is exactly the specification's:
`delta[t] = reward[t] + gamma*(1-done[t])*value[t+1] - value[t]` and
`advantage[t] = delta[t] + gamma*lam*(1-done[t])*advantage[t+1]`, computed
backward from the last step, with `value[T]` the bootstrap value and
`advantage[T] = 0`.  Exact rational arithmetic replaces floating point. -/
def gaeAdvantages (gamma lam bootstrap : Rat) : List GaeStep → List Rat
  | [] => []
  | s :: rest =>
      let tailAdv := gaeAdvantages gamma lam bootstrap rest
      let nextValue :=
        match rest with
        | [] => bootstrap
        | s2 :: _ => s2.value
      let nextAdv := tailAdv.headD 0
      let nonterminal : Rat := if s.done then 0 else 1
      let delta := s.reward + gamma * nonterminal * nextValue - s.value
      (delta + gamma * lam * nonterminal * nextAdv) :: tailAdv

/-- Modelled from the spec: `return[t] = advantage[t] + value[t]`. -/
def gaeReturns (gamma lam bootstrap : Rat) (buf : List GaeStep) : List Rat :=
  List.zipWith (fun a s => a + s.value) (gaeAdvantages gamma lam bootstrap buf) buf

lemma gaeAdvantages_length (gamma lam bootstrap : Rat) (buf : List GaeStep) :
    (gaeAdvantages gamma lam bootstrap buf).length = buf.length := by
  induction buf with
  | nil => rfl
  | cons s rest ih => simp [gaeAdvantages, ih]

lemma gaeAdvantages_zero (gamma lam : Rat) (buf : List GaeStep)
    (h : ∀ s ∈ buf, s.reward = 0 ∧ s.value = 0) :
    gaeAdvantages gamma lam 0 buf = List.replicate buf.length 0 := by
  induction buf with
  | nil => rfl
  | cons s rest ih =>
      have hs := h s (List.mem_cons_self s rest)
      have hrest : ∀ s2 ∈ rest, s2.reward = 0 ∧ s2.value = 0 :=
        fun s2 hm => h s2 (List.mem_cons_of_mem s hm)
      have htail : gaeAdvantages gamma lam 0 rest = List.replicate rest.length 0 :=
        ih hrest
      have hnv : (match rest with | [] => (0 : Rat) | s2 :: _ => s2.value) = 0 := by
        cases rest with
        | nil => rfl
        | cons s2 r2 => exact (hrest s2 (List.mem_cons_self s2 r2)).2
      have hrep : (List.replicate rest.length (0 : Rat)).head?.getD 0 = 0 := by
        cases rest <;> simp [List.replicate_succ]
      simp [gaeAdvantages, htail, hnv, hrep, hs.1, hs.2, List.replicate_succ]

lemma zipWith_value_zero (ds : List Bool) :
    List.zipWith (fun a s => a + s.value)
        (List.replicate ds.length (0 : Rat))
        (ds.map fun d => ({ reward := 0, value := 0, done := d } : GaeStep))
      = List.replicate ds.length 0 := by
  induction ds with
  | nil => rfl
  | cons d rest ih => simpa [List.replicate_succ] using ih

/-- C8 counterexample: a rollout buffer of 20 steps with all-zero rewards,
no terminal flags, constant value estimate `V = 1` at every step and at the
bootstrap, with `gamma = 99/100` and `lam = 19/20`.  The first advantage is
below `-1/10` and the first return below `9/10`, so the advantage is not
approximately 0 and the return does not equal `V = 1` within any numerical
tolerance finer than one part in ten. -/
theorem C8_gae_roundtrip_counterexample :
    (gaeAdvantages (99/100) (19/20) 1
        (List.replicate 20 { reward := 0, value := 1, done := false })).headD 0
      < -(1/10) ∧
    (gaeReturns (99/100) (19/20) 1
        (List.replicate 20 { reward := 0, value := 1, done := false })).headD 1
      < 9/10 := by
  constructor <;> norm_num [gaeReturns, gaeAdvantages, List.replicate]

/-- C8 amended: the GAE round-trip holds when the constant value estimate is
`V = 0`: for every buffer of all-zero rewards and all-zero value estimates
(any length, any done flags) with zero bootstrap, `gamma = 99/100` and
`lam = 19/20`, the advantage is exactly 0 at every step and the return
equals `V` at every step. -/
theorem C8_gae_roundtrip_zero_value (dones : List Bool) :
    gaeAdvantages (99/100) (19/20) 0
        (dones.map fun d => { reward := 0, value := 0, done := d })
      = List.replicate dones.length 0 ∧
    gaeReturns (99/100) (19/20) 0
        (dones.map fun d => { reward := 0, value := 0, done := d })
      = List.replicate dones.length 0 := by
  have h : ∀ s ∈ dones.map fun d => ({ reward := 0, value := 0, done := d } : GaeStep),
      s.reward = 0 ∧ s.value = 0 := by
    intro s hs
    rcases List.mem_map.1 hs with ⟨d, _, rfl⟩
    exact ⟨rfl, rfl⟩
  have hadv := gaeAdvantages_zero (99/100) (19/20) _ h
  constructor
  · simpa using hadv
  · rw [gaeReturns, hadv]
    simpa using zipWith_value_zero dones

/-! Determinism of a synchronous-backend run.  The components the loop
drives — `CleanPPOAgent` and the `PantheonLine` sub-environments — are not
under `src/`; the specification requires them to be deterministic given the
seeds, and declares their internals out of scope.  They are modelled below
as explicit deterministic state machines: a single 64-bit congruential
stream stands in for the globally seeded torch generator that both agents
sample from, and each sub-environment is a deterministic transition system
over an integer state derived from the `seed + i` that `make_env` gives it.
The wall-clock reading, the only non-configuration input the script reads,
enters the model exactly where it enters the source: the run name. -/

/-- Modelled from the spec: one step of the 64-bit congruential stream that
stands in for the torch global generator seeded by `torch.manual_seed`. -/
def lcgNext (s : Int) : Int :=
  (6364136223846793005 * s + 1442695040888963407) % (2 ^ 64)

/-- Modelled from the spec: the initial state of one `PantheonLine`
sub-environment, derived deterministically from the seeds installed by
`make_env`. -/
def subEnvInit (spec : SubEnvSpec) : Int :=
  lcgNext spec.env_seed

/-- Modelled from the spec: one deterministic sub-environment transition;
the ego action and the internally merged partner action both enter it. -/
def subEnvStep (state egoAction partnerAction : Int) : Int :=
  lcgNext (state + 3 * egoAction + 5 * partnerAction)

/-- Modelled from the spec: the deterministic reward read off a
sub-environment state. -/
def subEnvReward (state : Int) : Int :=
  state % 3

/-- The mutable state carried across one `get_action` / `step` / `update`
iteration of a synchronous-backend run: the shared generator stream, the
`num_envs` sub-environment states, both agents' parameters, and the actions
emitted so far (most recent first). -/
structure LoopState where
  rng : Int
  envStates : List Int
  egoParams : Int
  partnerParams : Int
  actionsRev : List Int
deriving DecidableEq, Repr

/-- Modelled from the spec: one iteration of the training loop.  The ego
agent samples its action from the shared stream, the registered partner
samples its own action from the same stream, every sub-environment steps
with the merged actions, and only the ego agent's parameters absorb the
update. -/
def loopStep (st : LoopState) : LoopState :=
  let r1 := lcgNext st.rng
  let egoAction := r1 % 4
  let r2 := lcgNext r1
  let partnerAction := r2 % 4
  let envStates := st.envStates.map fun s => subEnvStep s egoAction partnerAction
  let rewardSum := (envStates.map subEnvReward).sum
  { rng := r2
    envStates := envStates
    egoParams := st.egoParams + rewardSum
    partnerParams := st.partnerParams
    actionsRev := egoAction :: st.actionsRev }

/-- The state of a synchronous run just after `env.reset()`: the generator
stream seeded from `args.seed` (lines 95–97), sub-environment `i` in the
state determined by the `make_env (seed + i)` seeding (lines 91–93), both
parameter accumulators at their initial value. -/
def initLoopState (args : Args) : LoopState :=
  { rng := lcgNext args.seed
    envStates := (List.range args.num_envs).map
      fun (i : Nat) => subEnvInit (make_env (args.seed + (i : Int)) i)
    egoParams := 0
    partnerParams := 0
    actionsRev := [] }

/-- The loop state after all `num_updates * num_steps` iterations. -/
def syncRunFold (args : Args) : LoopState :=
  (List.range (num_updates args * args.num_steps)).foldl
    (fun st _ => loopStep st) (initLoopState args)

/-- The observable outcome of one full synchronous-backend run: the
persisted run name, the action sequence, and the final ego parameters. -/
structure SyncRunResult where
  name : String
  actions : List Int
  finalParams : Int
deriving DecidableEq, Repr

/-- One full synchronous-backend run of the script for a configuration and
a wall-clock reading. -/
def syncRunModel (args : Args) (unixTime : Nat) : SyncRunResult :=
  { name := run_name args unixTime
    actions := (syncRunFold args).actionsRev.reverse
    finalParams := (syncRunFold args).egoParams }

/-- C7: two full synchronous-backend runs with identical seed and identical
configuration produce identical action sequences and identical final
parameters, whatever wall-clock readings the two runs observe: every
quantity a run derives flows from the configuration and its seed alone, the
wall clock reaching only the run name. -/
theorem C7_sync_two_run_determinism (a1 a2 : Args) (t1 t2 : Nat)
    (hcfg : a1 = a2) (hsync : a1.madrona = false) :
    (syncRunModel a1 t1).actions = (syncRunModel a2 t2).actions ∧
    (syncRunModel a1 t1).finalParams = (syncRunModel a2 t2).finalParams := by
  subst hcfg
  exact ⟨rfl, rfl⟩

/-- Closed witness for `C7_sync_two_run_determinism`: the default
configuration on the synchronous backend, observed at wall-clock readings
0 and 1700000000. -/
theorem C7_sync_two_run_determinism_witness :
    ({ defaultArgs with madrona := false } : Args).madrona = false ∧
    ((syncRunModel { defaultArgs with madrona := false } 0).actions
        = (syncRunModel { defaultArgs with madrona := false } 1700000000).actions ∧
      (syncRunModel { defaultArgs with madrona := false } 0).finalParams
        = (syncRunModel { defaultArgs with madrona := false } 1700000000).finalParams) :=
  ⟨rfl, C7_sync_two_run_determinism _ _ 0 1700000000 rfl rfl⟩

end BalanceTrain
